import Mathlib

/-!
Shallow embedding of the AccuChek 11073-20601 USB protocol handler
(`src-tauri/src/usb/protocol.rs`) and proofs about its specification.

Byte buffers are modelled as `List Nat`; each element stands for one `u8`,
and every read masks with `% 256` so that the model is total.  Fallible
Rust code (`Result`) becomes `Except DlError`.  The mutable
`ProtocolHandler` state is passed explicitly; the transport is modelled as
the list of buffers the device will deliver, in order (an exhausted list
models a read that times out).
-/

deriving instance DecidableEq for Except

namespace AccuChek

/-- Protocol constants from `protocol.rs`. -/
def APDU_TYPE_ASSOCIATION_RESPONSE : Nat := 0xE300

def APDU_TYPE_ASSOCIATION_RELEASE_REQUEST : Nat := 0xE400

def APDU_TYPE_PRESENTATION_APDU : Nat := 0xE700

def DATA_APDU_INVOKE_GET : Nat := 0x0103

def DATA_APDU_INVOKE_CONFIRMED_ACTION : Nat := 0x0107

def DATA_APDU_RESPONSE_CONFIRMED_EVENT_REPORT : Nat := 0x0201

def EVENT_TYPE_MDC_NOTI_CONFIG : Nat := 0x0D1C

def EVENT_TYPE_MDC_NOTI_SEGMENT_DATA : Nat := 0x0D21

def ACTION_TYPE_MDC_ACT_SEG_GET_INFO : Nat := 0x0C0D

def ACTION_TYPE_MDC_ACT_SEG_TRIG_XFER : Nat := 0x0C1C

def MDC_MOC_VMO_PMSTORE : Nat := 61

/-- Read one byte of a buffer (a `u8`, hence the mask). -/
def byteAt (buf : List Nat) (i : Nat) : Nat := buf.getD i 0 % 256

/-- `u16::from_be_bytes([buf[i], buf[i+1]])`. -/
def u16_at (buf : List Nat) (i : Nat) : Nat := byteAt buf i * 256 + byteAt buf (i + 1)

/-- `u32::from_be_bytes([buf[i], .., buf[i+3]])`. -/
def u32_at (buf : List Nat) (i : Nat) : Nat :=
  byteAt buf i * 16777216 + byteAt buf (i + 1) * 65536 + byteAt buf (i + 2) * 256 +
    byteAt buf (i + 3)

/-- `write_be16`: append the two big-endian bytes of a `u16`. -/
def write_be16 (v : Nat) : List Nat := [v / 256 % 256, v % 256]

/-- `write_be32`: append the four big-endian bytes of a `u32`. -/
def write_be32 (v : Nat) : List Nat :=
  [v / 16777216 % 256, v / 65536 % 256, v / 256 % 256, v % 256]

/-- `bcd_decode`: `high = (b >> 4) & 0x0F, low = b & 0x0F, high*10 + low`. -/
def bcd_decode (val : Nat) : Nat := val / 16 % 16 * 10 + val % 16

/-- Rust `format!("{:02}", n)` for a non-negative number. -/
def pad2 (n : Nat) : String := if n < 10 then "0" ++ toString n else toString n

/-- The timestamp built in `parse_segment_samples`:
`format!("{:02}{:02}/{:02}/{:02} {:02}:{:02}", cc, yy, mm, dd, hh, mn)`. -/
def format_timestamp (cc yy mm dd hh mn : Nat) : String :=
  pad2 cc ++ pad2 yy ++ "/" ++ pad2 mm ++ "/" ++ pad2 dd ++ " " ++ pad2 hh ++ ":" ++ pad2 mn

/-- Gregorian leap year, as used by chrono's calendar validation. -/
def is_leap_year (y : Nat) : Bool := y % 4 == 0 && (y % 100 != 0 || y % 400 == 0)

/-- Number of days of month `m` in year `y`. -/
def days_in_month (y m : Nat) : Nat :=
  if m = 2 then (if is_leap_year y then 29 else 28)
  else if m = 4 ∨ m = 6 ∨ m = 9 ∨ m = 11 then 30
  else 31

/-- Model of `NaiveDateTime::parse_from_str(.., "%Y-%m-%d %H:%M:%S")` succeeding
on the string `format!("{}-{:02}-{:02} {:02}:{:02}:00", year, mm, dd, hh, mn)`:
chrono accepts it exactly when the fields form a real calendar instant. -/
def valid_datetime (y mm dd hh mn : Nat) : Bool :=
  1 ≤ mm && mm ≤ 12 && 1 ≤ dd && dd ≤ days_in_month y mm && hh ≤ 23 && mn ≤ 59

/-- Days from 1970-01-01 to `y`-`m`-`d` (proleptic Gregorian, civil-days
algorithm). -/
def days_from_civil (y : Int) (m d : Nat) : Int :=
  let y2 : Int := if m ≤ 2 then y - 1 else y
  let era : Int := Int.fdiv y2 400
  let yoe : Int := y2 - era * 400
  let doy : Int := (153 * (if 2 < m then (m : Int) - 3 else (m : Int) + 9) + 2) / 5 + d - 1
  let doe : Int := yoe * 365 + yoe / 4 - yoe / 100 + doy
  era * 146097 + doe - 719468

/-- The epoch the source computes via
`chrono::Local.from_local_datetime(..).unwrap().timestamp()`.  The source
uses the host local time zone; the model fixes offset 0 (no claim depends
on the numeric value, and the spec documents the local-zone lossiness). -/
def local_epoch (y mm dd hh mn : Nat) : Int :=
  86400 * days_from_civil (y : Int) mm dd + 3600 * hh + 60 * mn

/-- The `GlucoseSample` struct.  `mmol_l` is an `f64` in the source
(`vv as f64 / 18.0`); it is modelled as the exact rational `vv / 18`
(constructed with `mkRat` so that it evaluates). -/
structure GlucoseSample where
  id : Nat
  epoch : Int
  timestamp : String
  mg_dl : Nat
  mmol_l : Rat
deriving Repr, DecidableEq, Inhabited

/-- Errors the download can surface: `UsbError::Parse`, a transport
timeout (a bulk read with nothing left to deliver), and the chrono
`ParseError` propagated by the `?` in `parse_segment_samples`. -/
inductive DlError where
  | Parse (msg : String)
  | Timeout
  | DatetimeParse
deriving Repr, DecidableEq

/-- `update_invoke_id(6)`: read the big-endian `u16` at bytes `[6..8]` of the
receive buffer.  The source guard compares against the 1024-byte backing
buffer and can never fire inside `execute`, so the model is total. -/
def update_invoke_id (buf : List Nat) : Nat := u16_at buf 6

/-- The 48-byte phase-3 association response of `send_pairing_confirmation`. -/
def send_pairing_confirmation : List Nat :=
  write_be16 APDU_TYPE_ASSOCIATION_RESPONSE ++ write_be16 44 ++ write_be16 0x0003 ++
  write_be16 20601 ++ write_be16 38 ++ write_be32 0x80000002 ++ write_be16 0x8000 ++
  write_be32 0x80000000 ++ write_be32 0 ++ write_be32 0x80000000 ++ write_be16 8 ++
  write_be32 0x12345678 ++ write_be32 0 ++ write_be32 0 ++ write_be32 0 ++ write_be16 0

/-- Object walk of `parse_pm_store_handle`: `count` objects starting at
offset 28, each `{class, handle, attr_count, size}` followed by `size`
skipped bytes; the first object of class `MDC_MOC_VMO_PMSTORE` wins. -/
def pm_store_loop (buf : List Nat) (bytes_read : Nat) : Nat → Nat → Except DlError Nat
  | 0, _ => .error (.Parse "PM Store not found in config")
  | n + 1, offset =>
    if offset + 8 > bytes_read then .error (.Parse "PM Store not found in config")
    else
      let obj_class := u16_at buf offset
      let obj_handle := u16_at buf (offset + 2)
      let obj_size := u16_at buf (offset + 6)
      if obj_class = MDC_MOC_VMO_PMSTORE then .ok obj_handle
      else pm_store_loop buf bytes_read n (offset + 8 + obj_size)

/-- `parse_pm_store_handle`: offset 24, `count:u16`, skip count plus two
dummy bytes, then walk the objects. -/
def parse_pm_store_handle (buf : List Nat) (bytes_read : Nat) : Except DlError Nat :=
  if bytes_read < 28 then .error (.Parse "Config response too small")
  else pm_store_loop buf bytes_read (u16_at buf 24) 28

/-- Phase-5 `send_config_confirmation` frame. -/
def send_config_confirmation (invoke_id : Nat) : List Nat :=
  write_be16 APDU_TYPE_PRESENTATION_APDU ++ write_be16 22 ++ write_be16 20 ++
  write_be16 invoke_id ++ write_be16 DATA_APDU_RESPONSE_CONFIRMED_EVENT_REPORT ++
  write_be16 14 ++ write_be16 0 ++ write_be32 0 ++ write_be16 EVENT_TYPE_MDC_NOTI_CONFIG ++
  write_be16 4 ++ write_be16 0x4000 ++ write_be16 0

/-- Phase-6 `request_mds_attributes` frame (carries `invoke_id + 1`). -/
def request_mds_attributes (invoke_id : Nat) : List Nat :=
  write_be16 APDU_TYPE_PRESENTATION_APDU ++ write_be16 14 ++ write_be16 12 ++
  write_be16 (invoke_id + 1) ++ write_be16 DATA_APDU_INVOKE_GET ++ write_be16 6 ++
  write_be16 0 ++ write_be32 0

/-- Phase-8 `send_segment_info_request` frame (carries `invoke_id + 1`). -/
def send_segment_info_request (invoke_id pm_store_handle : Nat) : List Nat :=
  write_be16 APDU_TYPE_PRESENTATION_APDU ++ write_be16 20 ++ write_be16 18 ++
  write_be16 (invoke_id + 1) ++ write_be16 DATA_APDU_INVOKE_CONFIRMED_ACTION ++
  write_be16 12 ++ write_be16 pm_store_handle ++ write_be16 ACTION_TYPE_MDC_ACT_SEG_GET_INFO ++
  write_be16 6 ++ write_be16 1 ++ write_be16 2 ++ write_be16 0

/-- Phase-10 `request_data_segments` frame (carries `invoke_id + 1`). -/
def request_data_segments (invoke_id pm_store_handle : Nat) : List Nat :=
  write_be16 APDU_TYPE_PRESENTATION_APDU ++ write_be16 16 ++ write_be16 14 ++
  write_be16 (invoke_id + 1) ++ write_be16 DATA_APDU_INVOKE_CONFIRMED_ACTION ++
  write_be16 8 ++ write_be16 pm_store_handle ++ write_be16 ACTION_TYPE_MDC_ACT_SEG_TRIG_XFER ++
  write_be16 2 ++ write_be16 0

/-- Phase-12 `send_segment_ack` frame. -/
def send_segment_ack (invoke_id pm_store_handle u0 u1 u2 : Nat) : List Nat :=
  write_be16 APDU_TYPE_PRESENTATION_APDU ++ write_be16 30 ++ write_be16 28 ++
  write_be16 invoke_id ++ write_be16 DATA_APDU_RESPONSE_CONFIRMED_EVENT_REPORT ++
  write_be16 22 ++ write_be16 pm_store_handle ++ write_be32 0xFFFFFFFF ++
  write_be16 EVENT_TYPE_MDC_NOTI_SEGMENT_DATA ++ write_be16 12 ++ write_be32 u0 ++
  write_be32 u1 ++ write_be16 u2 ++ write_be16 0x0080

/-- The phase-13 association release request sent by `disconnect`. -/
def disconnect_msg : List Nat :=
  write_be16 APDU_TYPE_ASSOCIATION_RELEASE_REQUEST ++ write_be16 2 ++ write_be16 0

/-- The sample `parse_segment_samples` pushes for a valid entry. -/
def entry_sample (sample_id cc yy mm dd hh mn vv : Nat) : GlucoseSample :=
  { id := sample_id
    epoch := local_epoch (cc * 100 + yy) mm dd hh mn
    timestamp := format_timestamp cc yy mm dd hh mn
    mg_dl := vv
    mmol_l := mkRat vv 18 }

/-- Entry walk of `parse_segment_samples`: fuel is the number of entries
still owed, `offset` the cursor (entry start), `sample_id` the running
counter.  Mirrors the source loop body: break when `offset + 18 >
bytes_read`, decode the BCD sextet at `offset+6..12`, the value at
`offset+14..16`, the status at `offset+16..18`, advance the cursor by 12,
and emit only when the status is zero (propagating a chrono parse error
for an invalid calendar date). -/
def parse_entries (buf : List Nat) (bytes_read : Nat) :
    Nat → Nat → Nat → Except DlError (List GlucoseSample × Nat)
  | 0, _, sample_id => .ok ([], sample_id)
  | n + 1, offset, sample_id =>
    if offset + 18 > bytes_read then .ok ([], sample_id)
    else
      let cc := bcd_decode (byteAt buf (offset + 6))
      let yy := bcd_decode (byteAt buf (offset + 7))
      let mm := bcd_decode (byteAt buf (offset + 8))
      let dd := bcd_decode (byteAt buf (offset + 9))
      let hh := bcd_decode (byteAt buf (offset + 10))
      let mn := bcd_decode (byteAt buf (offset + 11))
      let vv := u16_at buf (offset + 14)
      let ss := u16_at buf (offset + 16)
      if ss = 0 then
        if valid_datetime (cc * 100 + yy) mm dd hh mn then
          match parse_entries buf bytes_read n (offset + 12) (sample_id + 1) with
          | .ok (rest, id2) => .ok (entry_sample sample_id cc yy mm dd hh mn vv :: rest, id2)
          | .error e => .error e
        else .error .DatetimeParse
      else parse_entries buf bytes_read n (offset + 12) sample_id

/-- `parse_segment_samples`: `nb_entries` is the big-endian `u16` at offset
30; the walk starts with the cursor at offset 30.  Returns the emitted
samples together with the updated counter (the source mutates
`*sample_id`). -/
def parse_segment_samples (buf : List Nat) (bytes_read sample_id : Nat) :
    Except DlError (List GlucoseSample × Nat) :=
  if bytes_read < 32 then .ok ([], sample_id)
  else parse_entries buf bytes_read (u16_at buf 30) 30 sample_id

/-- Result of the phase-12 loop: emitted samples, transmitted ACK frames,
the transport buffers left unconsumed, and the final `invoke_id`. -/
structure SegResult where
  samples : List GlucoseSample
  acks : List (List Nat)
  rest : List (List Nat)
  invoke_id : Nat
deriving Repr, DecidableEq

/-- `read_data_segments`' loop.  Each iteration reads one buffer; a short
read (< 33 bytes) exits the loop; otherwise `status_byte = buf[32]`,
`invoke_id` is refreshed from bytes `[6..8]`, `u0/u1/u2` are captured at
offsets 22/26/30, the buffer is parsed, the ACK is sent, and bit `0x40` of
the status byte ends the loop. -/
def read_data_segments_loop (pm_store_handle : Nat) :
    List (List Nat) → Nat → Nat → Except DlError SegResult
  | [], _, _ => .error .Timeout
  | buf :: rest, invoke_id, sample_id =>
    let bytes_read := buf.length
    if bytes_read < 33 then .ok ⟨[], [], rest, invoke_id⟩
    else
      let status := byteAt buf 32
      let invoke2 := update_invoke_id buf
      let u0 := u32_at buf 22
      let u1 := u32_at buf 26
      let u2 := u16_at buf 30
      match parse_segment_samples buf bytes_read sample_id with
      | .error e => .error e
      | .ok (segment_samples, sample_id2) =>
        let ack := send_segment_ack invoke2 pm_store_handle u0 u1 u2
        if status &&& 0x40 ≠ 0 then .ok ⟨segment_samples, [ack], rest, invoke2⟩
        else
          match read_data_segments_loop pm_store_handle rest invoke2 sample_id2 with
          | .error e => .error e
          | .ok r => .ok ⟨segment_samples ++ r.samples, ack :: r.acks, r.rest, r.invoke_id⟩

/-- `read_data_segments`: the loop starts with `sample_id = 0`. -/
def read_data_segments (pm_store_handle : Nat) (inputs : List (List Nat)) (invoke_id : Nat) :
    Except DlError SegResult :=
  read_data_segments_loop pm_store_handle inputs invoke_id 0

/-- The frames a successful session transmits, in phase order (the ACKs
are the phase-12 transmissions, one per acknowledged segment). -/
structure Transcript where
  assocResp : List Nat
  configConfirm : List Nat
  mdsReq : List Nat
  segInfoReq : List Nat
  trigReq : List Nat
  acks : List (List Nat)
  release : List Nat
deriving Repr, DecidableEq

/-- The 13-phase session (`ProtocolHandler::execute`), driven by the list
of buffers the transport will deliver.  Phase 1 (control probe) and the
writes consume no input; each bulk read consumes one buffer; an exhausted
input list is a read timeout.  On success, returns the samples and the
transcript of transmitted frames. -/
def execute (inputs : List (List Nat)) : Except DlError (List GlucoseSample × Transcript) :=
  match inputs with
  | [] => .error .Timeout
  | _b2 :: rest1 =>
    match rest1 with
    | [] => .error .Timeout
    | b4 :: rest2 =>
      let inv4 := update_invoke_id b4
      match parse_pm_store_handle b4 b4.length with
      | .error e => .error e
      | .ok pm =>
        match rest2 with
        | [] => .error .Timeout
        | b7 :: rest3 =>
          let inv7 := update_invoke_id b7
          match rest3 with
          | [] => .error .Timeout
          | b9 :: rest4 =>
            let inv9 := update_invoke_id b9
            match rest4 with
            | [] => .error .Timeout
            | b11 :: rest5 =>
              let inv11 := update_invoke_id b11
              match read_data_segments pm rest5 inv11 with
              | .error e => .error e
              | .ok r =>
                match r.rest with
                | [] => .error .Timeout
                | _ :: _ =>
                  .ok (r.samples,
                    { assocResp := send_pairing_confirmation
                      configConfirm := send_config_confirmation inv4
                      mdsReq := request_mds_attributes inv4
                      segInfoReq := send_segment_info_request inv7 pm
                      trigReq := request_data_segments inv9 pm
                      acks := r.acks
                      release := disconnect_msg })

/-- Definition following the words of the spec for the segment parser
(claim C1): entry `i` begins at buffer offset `30 + 12*i`; the BCD date
sextet is read at entry offsets `6..12`, the mg/dL value as big-endian
`u16` at `14..16`, the status at `16..18`; a sample is emitted only when
the status is zero; iteration stops without error as soon as the entry
start plus 18 exceeds the buffer length. -/
def spec_entry_walk (buf : List Nat) (bytes_read : Nat) :
    Nat → Nat → Nat → Except DlError (List GlucoseSample × Nat)
  | _, 0, sample_id => .ok ([], sample_id)
  | i, n + 1, sample_id =>
    if 30 + 12 * i + 18 > bytes_read then .ok ([], sample_id)
    else
      let cc := bcd_decode (byteAt buf (30 + 12 * i + 6))
      let yy := bcd_decode (byteAt buf (30 + 12 * i + 7))
      let mm := bcd_decode (byteAt buf (30 + 12 * i + 8))
      let dd := bcd_decode (byteAt buf (30 + 12 * i + 9))
      let hh := bcd_decode (byteAt buf (30 + 12 * i + 10))
      let mn := bcd_decode (byteAt buf (30 + 12 * i + 11))
      let vv := u16_at buf (30 + 12 * i + 14)
      let ss := u16_at buf (30 + 12 * i + 16)
      if ss = 0 then
        if valid_datetime (cc * 100 + yy) mm dd hh mn then
          match spec_entry_walk buf bytes_read (i + 1) n (sample_id + 1) with
          | .ok (rest, id2) => .ok (entry_sample sample_id cc yy mm dd hh mn vv :: rest, id2)
          | .error e => .error e
        else .error .DatetimeParse
      else spec_entry_walk buf bytes_read (i + 1) n sample_id

/-- Spec-side segment parser: `nb_entries` is the big-endian `u16` at
offset 30 and the indexed walk starts at entry 0. -/
def parse_segment_samples_spec (buf : List Nat) (bytes_read sample_id : Nat) :
    Except DlError (List GlucoseSample × Nat) :=
  if bytes_read < 32 then .ok ([], sample_id)
  else spec_entry_walk buf bytes_read 0 (u16_at buf 30) sample_id

/-- Definition following the words of the spec for the PM-store search
(claim C2): the `(class, handle)` pairs of the objects actually walked,
starting at `offset`, each entry `{class:u16, handle:u16, attr_count:u16,
size:u16}` followed by `size` skipped bytes. -/
def spec_pm_objects (buf : List Nat) (bytes_read : Nat) : Nat → Nat → List (Nat × Nat)
  | 0, _ => []
  | n + 1, offset =>
    if offset + 8 > bytes_read then []
    else
      (u16_at buf offset, u16_at buf (offset + 2)) ::
        spec_pm_objects buf bytes_read n (offset + 8 + u16_at buf (offset + 6))

theorem byteAt_lt (buf : List Nat) (i : Nat) : byteAt buf i < 256 :=
  Nat.mod_lt _ (by norm_num)

theorem u16_at_lt (buf : List Nat) (i : Nat) : u16_at buf i < 65536 := by
  have h1 := byteAt_lt buf i
  have h2 := byteAt_lt buf (i + 1)
  unfold u16_at
  omega

theorem parse_entries_eq_spec (buf : List Nat) (L : Nat) :
    ∀ n i c, parse_entries buf L n (30 + 12 * i) c = spec_entry_walk buf L i n c := by
  intro n
  induction n with
  | zero => intro i c; rfl
  | succ n ih =>
    intro i c
    have h12 : 30 + 12 * i + 12 = 30 + 12 * (i + 1) := by ring
    simp only [parse_entries, spec_entry_walk, h12, ih]

/-- C1: the segment parser walks `nb_entries` (the big-endian u16 at
offset 30) entries, entry `i` starting at buffer offset `30 + 12*i`, with
the BCD date sextet at entry offsets `6..12`, the mg/dL value at `14..16`
and the status at `16..18` (overlapping the next stride); a sample is
emitted only for status 0, and iteration stops without error once the
entry start plus 18 exceeds the buffer length. -/
theorem segment_parser_layout (buf : List Nat) (L sample_id : Nat) :
    parse_segment_samples buf L sample_id = parse_segment_samples_spec buf L sample_id := by
  unfold parse_segment_samples parse_segment_samples_spec
  split
  · rfl
  · simpa using parse_entries_eq_spec buf L (u16_at buf 30) 0 sample_id

/-- C3: the phase-3 association response is exactly these 48 bytes. -/
theorem assoc_response_bytes :
    send_pairing_confirmation =
      [0xE3, 0x00, 0x00, 0x2C, 0x00, 0x03, 0x50, 0x79, 0x00, 0x26,
       0x80, 0x00, 0x00, 0x02, 0x80, 0x00, 0x80, 0x00, 0x00, 0x00,
       0x00, 0x00, 0x00, 0x00, 0x80, 0x00, 0x00, 0x00, 0x00, 0x08,
       0x12, 0x34, 0x56, 0x78, 0x00, 0x00, 0x00, 0x00, 0x00, 0x00,
       0x00, 0x00, 0x00, 0x00, 0x00, 0x00, 0x00, 0x00] ∧
    send_pairing_confirmation.length = 48 := by decide

theorem pm_store_loop_eq_find (buf : List Nat) (L : Nat) :
    ∀ n offset, pm_store_loop buf L n offset =
      match (spec_pm_objects buf L n offset).find? (fun o => o.1 == MDC_MOC_VMO_PMSTORE) with
      | some o => .ok o.2
      | none => .error (.Parse "PM Store not found in config") := by
  intro n
  induction n with
  | zero => intro offset; rfl
  | succ n ih =>
    intro offset
    simp only [pm_store_loop, spec_pm_objects]
    split
    · rfl
    · by_cases hcl : u16_at buf offset = MDC_MOC_VMO_PMSTORE
      · simp [hcl]
      · simp only [List.find?]
        rw [show ((u16_at buf offset == MDC_MOC_VMO_PMSTORE) = false) by simpa using hcl]
        simp only [if_neg hcl, ih]

/-- C2 (amended): starting at offset 24 the config parser reads
`count:u16`, skips two padding bytes, walks `{class, handle, attr_count,
size}` objects skipping `size` bytes each; the handle of the first walked
object of class `MDC_MOC_VMO_PMSTORE` (61) is returned, and if none
matches, the session fails with `Parse "PM Store not found in config"`,
which `execute` propagates so no samples are returned. -/
theorem pm_store_locate_amended :
    (∀ (buf : List Nat) (L : Nat), ¬ L < 28 →
      parse_pm_store_handle buf L =
        match (spec_pm_objects buf L (u16_at buf 24) 28).find?
            (fun o => o.1 == MDC_MOC_VMO_PMSTORE) with
        | some o => .ok o.2
        | none => .error (.Parse "PM Store not found in config")) ∧
    (∀ (b2 b4 : List Nat) (rest : List (List Nat)) (e : DlError),
      parse_pm_store_handle b4 b4.length = .error e →
      execute (b2 :: b4 :: rest) = .error e) := by
  constructor
  · intro buf L hL
    unfold parse_pm_store_handle
    rw [if_neg hL]
    exact pm_store_loop_eq_find buf L _ 28
  · intro b2 b4 rest e he
    simp [execute, he]

/-- Configuration buffer whose only object has class 99: the PM store is
absent. -/
def c2_config_bad : List Nat :=
  List.replicate 24 0 ++ [0, 1, 0, 0] ++ [0, 99, 0, 16, 0, 0, 0, 0]

/-- C2 counterexample: with a class-99-only configuration the session
fails with `Parse "PM Store not found in config"`, not with the spec's
`Parse "PM Store not found"`. -/
theorem pm_store_error_message_counterexample :
    execute [[], c2_config_bad] = .error (.Parse "PM Store not found in config") ∧
    execute [[], c2_config_bad] ≠ .error (.Parse "PM Store not found") ∧
    ("PM Store not found in config" : String) ≠ "PM Store not found" := by decide

/-- Configuration buffer with a class-99 object of size 2 followed by a
class-61 object with handle 16. -/
def c2_config_ok : List Nat :=
  List.replicate 24 0 ++ [0, 2, 0, 0] ++ [0, 99, 0, 7, 0, 0, 0, 2] ++ [9, 9] ++
    [0, 61, 0, 16, 0, 0, 0, 0]

theorem pm_store_locate_amended_witness :
    parse_pm_store_handle c2_config_ok 46 =
      (match (spec_pm_objects c2_config_ok 46 (u16_at c2_config_ok 24) 28).find?
          (fun o => o.1 == MDC_MOC_VMO_PMSTORE) with
        | some o => .ok o.2
        | none => .error (.Parse "PM Store not found in config")) ∧
    execute [[], [0]] = .error (.Parse "Config response too small") :=
  ⟨pm_store_locate_amended.1 c2_config_ok 46 (by decide),
   pm_store_locate_amended.2 [] [0] [] _ (by decide)⟩

theorem parse_entries_ids (buf : List Nat) (L : Nat) :
    ∀ n offset c samples c2,
      parse_entries buf L n offset c = .ok (samples, c2) →
      c2 = c + samples.length ∧
      ∀ j, j < samples.length → (samples.getD j default).id = c + j := by
  intro n
  induction n with
  | zero =>
    intro offset c samples c2 h
    simp only [parse_entries, Except.ok.injEq, Prod.mk.injEq] at h
    obtain ⟨rfl, rfl⟩ := h
    exact ⟨rfl, by intro j hj; simp at hj⟩
  | succ n ih =>
    intro offset c samples c2 h
    simp only [parse_entries] at h
    split at h
    · simp only [Except.ok.injEq, Prod.mk.injEq] at h
      obtain ⟨rfl, rfl⟩ := h
      exact ⟨rfl, by intro j hj; simp at hj⟩
    · split at h
      · split at h
        · cases hrec : parse_entries buf L n (offset + 12) (c + 1) with
          | error e => rw [hrec] at h; cases h
          | ok p =>
            obtain ⟨rest, id2⟩ := p
            rw [hrec] at h
            simp only [Except.ok.injEq, Prod.mk.injEq] at h
            obtain ⟨rfl, rfl⟩ := h
            obtain ⟨hc, hids⟩ := ih (offset + 12) (c + 1) rest id2 hrec
            constructor
            · simp [hc]; omega
            · intro j hj
              cases j with
              | zero => simp [entry_sample]
              | succ j =>
                simp only [List.getD_cons_succ]
                have hj2 : j < rest.length := by simpa using hj
                have := hids j hj2
                omega
        · cases h
      · obtain ⟨hc, hids⟩ := ih (offset + 12) c samples c2 h
        exact ⟨hc, hids⟩

theorem parse_segment_samples_ids (buf : List Nat) (L c : Nat)
    (samples : List GlucoseSample) (c2 : Nat)
    (h : parse_segment_samples buf L c = .ok (samples, c2)) :
    c2 = c + samples.length ∧
    ∀ j, j < samples.length → (samples.getD j default).id = c + j := by
  unfold parse_segment_samples at h
  split at h
  · simp only [Except.ok.injEq, Prod.mk.injEq] at h
    obtain ⟨rfl, rfl⟩ := h
    exact ⟨rfl, by intro j hj; simp at hj⟩
  · exact parse_entries_ids buf L _ 30 c samples c2 h

theorem rds_loop_spec (pm : Nat) :
    ∀ (inputs : List (List Nat)) (inv c : Nat) (r : SegResult),
      read_data_segments_loop pm inputs inv c = .ok r →
      r.acks.length + r.rest.length ≤ inputs.length ∧
      (∀ i, i < r.acks.length →
        33 ≤ (inputs.getD i []).length ∧
        r.acks.getD i [] =
          send_segment_ack (update_invoke_id (inputs.getD i [])) pm
            (u32_at (inputs.getD i []) 22) (u32_at (inputs.getD i []) 26)
            (u16_at (inputs.getD i []) 30)) ∧
      (∀ j, j < r.samples.length → (r.samples.getD j default).id = c + j) ∧
      (∀ a ∈ r.acks, ∃ iv u0 u1 u2, a = send_segment_ack iv pm u0 u1 u2) := by
  intro inputs
  induction inputs with
  | nil => intro inv c r h; simp [read_data_segments_loop] at h
  | cons buf rest ih =>
    intro inv c r h
    simp only [read_data_segments_loop] at h
    split at h
    · rename_i hshort
      simp only [Except.ok.injEq] at h
      subst h
      refine ⟨by simp, ?_, ?_, ?_⟩
      · intro i hi; simp at hi
      · intro j hj; simp at hj
      · intro a ha; simp at ha
    · rename_i hlong
      split at h
      · cases h
      · rename_i segsamps c2 hp
        obtain ⟨hc2, hsegids⟩ := parse_segment_samples_ids buf buf.length c segsamps c2 hp
        split at h
        · simp only [Except.ok.injEq] at h
          subst h
          dsimp only
          refine ⟨by simp only [List.length_cons, List.length_nil]; omega, ?_, ?_, ?_⟩
          · intro i hi
            simp only [List.length_singleton] at hi
            interval_cases i
            refine ⟨?_, ?_⟩
            · simp only [List.getD_cons_zero]
              omega
            · simp only [List.getD_cons_zero]
          · intro j hj
            simpa using hsegids j hj
          · intro a ha
            simp only [List.mem_singleton] at ha
            exact ⟨update_invoke_id buf, u32_at buf 22, u32_at buf 26, u16_at buf 30, ha⟩
        · split at h
          · cases h
          · rename_i rr hrec
            simp only [Except.ok.injEq] at h
            subst h
            obtain ⟨hcount, hacks, hids, hmem⟩ := ih (update_invoke_id buf) c2 rr hrec
            dsimp only
            refine ⟨?_, ?_, ?_, ?_⟩
            · simp only [List.length_cons]
              omega
            · intro i hi
              simp only [List.length_cons] at hi
              cases i with
              | zero =>
                refine ⟨?_, ?_⟩
                · simp only [List.getD_cons_zero]
                  omega
                · simp only [List.getD_cons_zero]
              | succ i =>
                have hi2 : i < rr.acks.length := by omega
                simpa using hacks i hi2
            · intro j hj
              simp only [List.length_append] at hj
              by_cases hcase : j < segsamps.length
              · rw [List.getD_append _ _ _ _ hcase]
                exact hsegids j hcase
              · rw [List.getD_append_right _ _ _ _ (by omega)]
                have := hids (j - segsamps.length) (by omega)
                omega
            · intro a ha
              simp only [List.mem_cons] at ha
              cases ha with
              | inl heq =>
                exact ⟨update_invoke_id buf, u32_at buf 22, u32_at buf 26, u16_at buf 30, heq⟩
              | inr hmem2 => exact hmem a hmem2

theorem execute_ok_shape {inputs : List (List Nat)} {s : List GlucoseSample} {t : Transcript}
    (h : execute inputs = .ok (s, t)) :
    ∃ b2 b4 b7 b9 b11 rest5 pm r,
      inputs = b2 :: b4 :: b7 :: b9 :: b11 :: rest5 ∧
      parse_pm_store_handle b4 b4.length = .ok pm ∧
      read_data_segments_loop pm rest5 (update_invoke_id b11) 0 = .ok r ∧
      r.rest ≠ [] ∧ s = r.samples ∧
      t = { assocResp := send_pairing_confirmation
            configConfirm := send_config_confirmation (update_invoke_id b4)
            mdsReq := request_mds_attributes (update_invoke_id b4)
            segInfoReq := send_segment_info_request (update_invoke_id b7) pm
            trigReq := request_data_segments (update_invoke_id b9) pm
            acks := r.acks
            release := disconnect_msg } := by
  simp only [execute, read_data_segments] at h
  split at h
  · exact Except.noConfusion h
  rename_i b2 rest1
  split at h
  · exact Except.noConfusion h
  rename_i b4 rest2
  split at h
  · exact Except.noConfusion h
  rename_i pm hpm
  split at h
  · exact Except.noConfusion h
  rename_i b7 rest3
  split at h
  · exact Except.noConfusion h
  rename_i b9 rest4
  split at h
  · exact Except.noConfusion h
  rename_i b11 rest5
  split at h
  · exact Except.noConfusion h
  rename_i r hloop
  split at h
  · exact Except.noConfusion h
  rename_i hd tl hrest
  simp only [Except.ok.injEq, Prod.mk.injEq] at h
  obtain ⟨hs, ht⟩ := h
  exact ⟨b2, b4, b7, b9, b11, rest5, pm, r, rfl, hpm, hloop, by rw [hrest]; simp,
    hs.symm, ht.symm⟩

theorem send_pairing_confirmation_header :
    send_pairing_confirmation.length = 48 ∧ u16_at send_pairing_confirmation 2 = 44 := by
  constructor <;> decide

theorem send_config_confirmation_header (iv : Nat) :
    (send_config_confirmation iv).length = 26 ∧ u16_at (send_config_confirmation iv) 2 = 22 := by
  constructor <;>
    simp [send_config_confirmation, write_be16, write_be32, u16_at, byteAt,
      APDU_TYPE_PRESENTATION_APDU]

theorem request_mds_attributes_header (iv : Nat) :
    (request_mds_attributes iv).length = 18 ∧ u16_at (request_mds_attributes iv) 2 = 14 := by
  constructor <;>
    simp [request_mds_attributes, write_be16, write_be32, u16_at, byteAt,
      APDU_TYPE_PRESENTATION_APDU]

theorem send_segment_info_request_header (iv pm : Nat) :
    (send_segment_info_request iv pm).length = 24 ∧
    u16_at (send_segment_info_request iv pm) 2 = 20 := by
  constructor <;>
    simp [send_segment_info_request, write_be16, write_be32, u16_at, byteAt,
      APDU_TYPE_PRESENTATION_APDU]

theorem request_data_segments_header (iv pm : Nat) :
    (request_data_segments iv pm).length = 20 ∧
    u16_at (request_data_segments iv pm) 2 = 16 := by
  constructor <;>
    simp [request_data_segments, write_be16, write_be32, u16_at, byteAt,
      APDU_TYPE_PRESENTATION_APDU]

theorem send_segment_ack_header (iv pm u0 u1 u2 : Nat) :
    (send_segment_ack iv pm u0 u1 u2).length = 34 ∧
    u16_at (send_segment_ack iv pm u0 u1 u2) 2 = 30 := by
  constructor <;>
    simp [send_segment_ack, write_be16, write_be32, u16_at, byteAt,
      APDU_TYPE_PRESENTATION_APDU]

theorem disconnect_msg_header :
    disconnect_msg.length = 6 ∧ u16_at disconnect_msg 2 = 2 := by
  constructor <;> decide

theorem request_mds_attributes_invoke (iv : Nat) :
    u16_at (request_mds_attributes iv) 6 = (iv + 1) % 65536 := by
  simp [request_mds_attributes, write_be16, write_be32, u16_at, byteAt,
    APDU_TYPE_PRESENTATION_APDU, DATA_APDU_INVOKE_GET]
  omega

theorem send_segment_info_request_invoke (iv pm : Nat) :
    u16_at (send_segment_info_request iv pm) 6 = (iv + 1) % 65536 := by
  simp [send_segment_info_request, write_be16, write_be32, u16_at, byteAt,
    APDU_TYPE_PRESENTATION_APDU, DATA_APDU_INVOKE_CONFIRMED_ACTION]
  omega

theorem request_data_segments_invoke (iv pm : Nat) :
    u16_at (request_data_segments iv pm) 6 = (iv + 1) % 65536 := by
  simp [request_data_segments, write_be16, write_be32, u16_at, byteAt,
    APDU_TYPE_PRESENTATION_APDU, DATA_APDU_INVOKE_CONFIRMED_ACTION]
  omega

theorem send_segment_ack_invoke (iv pm u0 u1 u2 : Nat) :
    u16_at (send_segment_ack iv pm u0 u1 u2) 6 = iv % 65536 := by
  simp [send_segment_ack, write_be16, write_be32, u16_at, byteAt,
    APDU_TYPE_PRESENTATION_APDU, DATA_APDU_RESPONSE_CONFIRMED_EVENT_REPORT]
  omega

theorem send_segment_ack_u2 (iv pm u0 u1 u2 : Nat) :
    u16_at (send_segment_ack iv pm u0 u1 u2) 30 = u2 % 65536 := by
  simp [send_segment_ack, write_be16, write_be32, u16_at, byteAt,
    APDU_TYPE_PRESENTATION_APDU, DATA_APDU_RESPONSE_CONFIRMED_EVENT_REPORT,
    EVENT_TYPE_MDC_NOTI_SEGMENT_DATA]
  omega

theorem u16_at_mod (buf : List Nat) (i : Nat) : u16_at buf i % 65536 = u16_at buf i :=
  Nat.mod_eq_of_lt (u16_at_lt buf i)

/-- C4: `invoke_id` is refreshed from bytes `[6..8]` of the buffer received
in phases 4, 7, 9, 11 and by every segment read; the phase-6/8/10 requests
carry the most recent refresh plus one (as a `u16`), and every phase-12
ACK carries the `invoke_id` refreshed from the segment it acknowledges. -/
theorem invoke_id_propagation (b2 b4 b7 b9 b11 : List Nat) (segs : List (List Nat))
    (brel : List Nat) (s : List GlucoseSample) (t : Transcript)
    (h : execute (b2 :: b4 :: b7 :: b9 :: b11 :: (segs ++ [brel])) = .ok (s, t)) :
    u16_at t.mdsReq 6 = (u16_at b4 6 + 1) % 65536 ∧
    u16_at t.segInfoReq 6 = (u16_at b7 6 + 1) % 65536 ∧
    u16_at t.trigReq 6 = (u16_at b9 6 + 1) % 65536 ∧
    t.acks.length ≤ segs.length ∧
    ∀ i, i < t.acks.length → u16_at (t.acks.getD i []) 6 = u16_at (segs.getD i []) 6 := by
  obtain ⟨c2, c4, c7, c9, c11, rest5, pm, r, hin, hpm, hloop, hne, hs, ht⟩ :=
    execute_ok_shape h
  simp only [List.cons.injEq] at hin
  obtain ⟨rfl, rfl, rfl, rfl, rfl, rfl⟩ := hin
  subst ht
  dsimp only
  obtain ⟨hcount, hacks, hids, hmem⟩ :=
    rds_loop_spec pm (segs ++ [brel]) (update_invoke_id b11) 0 r hloop
  have hrne : 1 ≤ r.rest.length := List.length_pos.mpr hne
  have hlen : r.acks.length ≤ segs.length := by
    simp only [List.length_append, List.length_singleton] at hcount
    omega
  refine ⟨request_mds_attributes_invoke (update_invoke_id b4),
    send_segment_info_request_invoke (update_invoke_id b7) pm,
    request_data_segments_invoke (update_invoke_id b9) pm, hlen, ?_⟩
  intro i hi
  obtain ⟨hseglen, hack⟩ := hacks i hi
  have hgetD : (segs ++ [brel]).getD i [] = segs.getD i [] :=
    List.getD_append _ _ _ _ (by omega)
  rw [hack, hgetD, send_segment_ack_invoke]
  exact u16_at_mod (segs.getD i []) 6

/-- C7: every transmitted frame starts with `type:u16, length:u16` where
the length field equals the number of bytes following it (total frame
length minus 4). -/
theorem frame_length_invariant (inputs : List (List Nat)) (s : List GlucoseSample)
    (t : Transcript) (h : execute inputs = .ok (s, t)) :
    ∀ f, f ∈ [t.assocResp, t.configConfirm, t.mdsReq, t.segInfoReq, t.trigReq, t.release]
        ++ t.acks →
      4 ≤ f.length ∧ u16_at f 2 = f.length - 4 := by
  obtain ⟨b2, b4, b7, b9, b11, rest5, pm, r, hin, hpm, hloop, hne, hs, ht⟩ :=
    execute_ok_shape h
  subst ht
  dsimp only
  obtain ⟨hcount, hacks, hids, hmem⟩ :=
    rds_loop_spec pm rest5 (update_invoke_id b11) 0 r hloop
  intro f hf
  simp only [List.mem_append, List.mem_cons, List.not_mem_nil, or_false] at hf
  rcases hf with (hf | hf | hf | hf | hf | hf) | hf
  · subst hf
    obtain ⟨h1, h2⟩ := send_pairing_confirmation_header
    rw [h1, h2]
    exact ⟨by omega, rfl⟩
  · subst hf
    obtain ⟨h1, h2⟩ := send_config_confirmation_header (update_invoke_id b4)
    rw [h1, h2]
    exact ⟨by omega, rfl⟩
  · subst hf
    obtain ⟨h1, h2⟩ := request_mds_attributes_header (update_invoke_id b4)
    rw [h1, h2]
    exact ⟨by omega, rfl⟩
  · subst hf
    obtain ⟨h1, h2⟩ := send_segment_info_request_header (update_invoke_id b7) pm
    rw [h1, h2]
    exact ⟨by omega, rfl⟩
  · subst hf
    obtain ⟨h1, h2⟩ := request_data_segments_header (update_invoke_id b9) pm
    rw [h1, h2]
    exact ⟨by omega, rfl⟩
  · subst hf
    obtain ⟨h1, h2⟩ := disconnect_msg_header
    rw [h1, h2]
    exact ⟨by omega, rfl⟩
  · obtain ⟨iv, u0, u1, u2, hf2⟩ := hmem f hf
    subst hf2
    obtain ⟨h1, h2⟩ := send_segment_ack_header iv pm u0 u1 u2
    rw [h1, h2]
    exact ⟨by omega, rfl⟩

/-- C8: sample ids are 0-based and sequential in emission order across
segment boundaries, so every sample's id equals its index and satisfies
`0 ≤ id < len(samples)`. -/
theorem sample_ids_sequential (inputs : List (List Nat)) (s : List GlucoseSample)
    (t : Transcript) (h : execute inputs = .ok (s, t)) :
    ∀ i, i < s.length → (s.getD i default).id = i := by
  obtain ⟨b2, b4, b7, b9, b11, rest5, pm, r, hin, hpm, hloop, hne, hs, ht⟩ :=
    execute_ok_shape h
  subst hs
  obtain ⟨hcount, hacks, hids, hmem⟩ :=
    rds_loop_spec pm rest5 (update_invoke_id b11) 0 r hloop
  intro i hi
  have := hids i hi
  omega

/-- C10: the third echoed value of each segment ACK equals the entry count
`nb_entries` the parser walks for that same buffer: both are the
big-endian `u16` at buffer bytes `30..32`, so the ACK byte pair `30..32`
equals the segment byte pair `30..32`, and for every acknowledged segment
the parser's walk is the entry loop run with exactly the count reported in
the ACK. -/
theorem ack_reports_entry_count (b2 b4 b7 b9 b11 : List Nat) (segs : List (List Nat))
    (brel : List Nat) (s : List GlucoseSample) (t : Transcript)
    (h : execute (b2 :: b4 :: b7 :: b9 :: b11 :: (segs ++ [brel])) = .ok (s, t)) :
    t.acks.length ≤ segs.length ∧
    ∀ i, i < t.acks.length →
      u16_at (t.acks.getD i []) 30 = u16_at (segs.getD i []) 30 ∧
      ∀ c, parse_segment_samples (segs.getD i []) (segs.getD i []).length c =
        parse_entries (segs.getD i []) (segs.getD i []).length
          (u16_at (t.acks.getD i []) 30) 30 c := by
  obtain ⟨c2, c4, c7, c9, c11, rest5, pm, r, hin, hpm, hloop, hne, hs, ht⟩ :=
    execute_ok_shape h
  simp only [List.cons.injEq] at hin
  obtain ⟨rfl, rfl, rfl, rfl, rfl, rfl⟩ := hin
  subst ht
  dsimp only
  obtain ⟨hcount, hacks, hids, hmem⟩ :=
    rds_loop_spec pm (segs ++ [brel]) (update_invoke_id b11) 0 r hloop
  have hrne : 1 ≤ r.rest.length := List.length_pos.mpr hne
  have hlen : r.acks.length ≤ segs.length := by
    simp only [List.length_append, List.length_singleton] at hcount
    omega
  refine ⟨hlen, ?_⟩
  intro i hi
  obtain ⟨hseglen, hack⟩ := hacks i hi
  have hgetD : (segs ++ [brel]).getD i [] = segs.getD i [] :=
    List.getD_append _ _ _ _ (by omega)
  rw [hgetD] at hseglen hack
  have hu2 : u16_at (r.acks.getD i []) 30 = u16_at (segs.getD i []) 30 := by
    rw [hack, send_segment_ack_u2]
    exact u16_at_mod (segs.getD i []) 30
  refine ⟨hu2, ?_⟩
  intro c
  rw [hu2]
  unfold parse_segment_samples
  rw [if_neg (by omega)]

/-- C6: a phase-12 read of fewer than 33 bytes is end-of-stream, not an
error: the loop returns at once without parsing that buffer or ACKing it
(keeping the samples and counter accumulated so far), and when the first
segment read is short the session performs the phase-13 release and
returns successfully with zero samples and no ACKs. -/
theorem short_segment_end_of_stream (pm : Nat) (b2 b4 b7 b9 b11 shortseg : List Nat)
    (rest : List (List Nat)) (inv c : Nat)
    (hpm : parse_pm_store_handle b4 b4.length = .ok pm)
    (hshort : shortseg.length < 33) (hrest : rest ≠ []) :
    read_data_segments_loop pm (shortseg :: rest) inv c = .ok ⟨[], [], rest, inv⟩ ∧
    execute (b2 :: b4 :: b7 :: b9 :: b11 :: shortseg :: rest) =
      .ok ([], { assocResp := send_pairing_confirmation
                 configConfirm := send_config_confirmation (update_invoke_id b4)
                 mdsReq := request_mds_attributes (update_invoke_id b4)
                 segInfoReq := send_segment_info_request (update_invoke_id b7) pm
                 trigReq := request_data_segments (update_invoke_id b9) pm
                 acks := []
                 release := disconnect_msg }) := by
  have hloop : ∀ iv cc, read_data_segments_loop pm (shortseg :: rest) iv cc =
      .ok ⟨[], [], rest, iv⟩ := by
    intro iv cc
    simp [read_data_segments_loop, hshort]
  refine ⟨hloop inv c, ?_⟩
  cases rest with
  | nil => exact absurd rfl hrest
  | cons hd tl =>
    simp only [execute, read_data_segments, hpm, hloop]

/-- Entry walk errs with the chrono parse error whenever some reachable
entry has status 0 but an invalid calendar date-time. -/
theorem parse_entries_error_of_bad (buf : List Nat) (L : Nat) :
    ∀ n k offset c, k < n → offset + 12 * k + 18 ≤ L →
      u16_at buf (offset + 12 * k + 16) = 0 →
      valid_datetime
        (bcd_decode (byteAt buf (offset + 12 * k + 6)) * 100 +
          bcd_decode (byteAt buf (offset + 12 * k + 7)))
        (bcd_decode (byteAt buf (offset + 12 * k + 8)))
        (bcd_decode (byteAt buf (offset + 12 * k + 9)))
        (bcd_decode (byteAt buf (offset + 12 * k + 10)))
        (bcd_decode (byteAt buf (offset + 12 * k + 11))) = false →
      parse_entries buf L n offset c = .error .DatetimeParse := by
  intro n
  induction n with
  | zero => intro k offset c hk; omega
  | succ n ih =>
    intro k offset c hk hfit hss hbad
    simp only [parse_entries]
    rw [if_neg (by omega)]
    cases k with
    | zero =>
      simp only [Nat.mul_zero, Nat.add_zero] at hss hbad
      rw [if_pos hss, if_neg (by simp [hbad])]
    | succ k =>
      have e6 : offset + 12 + 12 * k + 6 = offset + 12 * (k + 1) + 6 := by ring
      have e7 : offset + 12 + 12 * k + 7 = offset + 12 * (k + 1) + 7 := by ring
      have e8 : offset + 12 + 12 * k + 8 = offset + 12 * (k + 1) + 8 := by ring
      have e9 : offset + 12 + 12 * k + 9 = offset + 12 * (k + 1) + 9 := by ring
      have e10 : offset + 12 + 12 * k + 10 = offset + 12 * (k + 1) + 10 := by ring
      have e11 : offset + 12 + 12 * k + 11 = offset + 12 * (k + 1) + 11 := by ring
      have e16 : offset + 12 + 12 * k + 16 = offset + 12 * (k + 1) + 16 := by ring
      have hssr : u16_at buf (offset + 12 + 12 * k + 16) = 0 := by rw [e16]; exact hss
      have hbadr : valid_datetime
          (bcd_decode (byteAt buf (offset + 12 + 12 * k + 6)) * 100 +
            bcd_decode (byteAt buf (offset + 12 + 12 * k + 7)))
          (bcd_decode (byteAt buf (offset + 12 + 12 * k + 8)))
          (bcd_decode (byteAt buf (offset + 12 + 12 * k + 9)))
          (bcd_decode (byteAt buf (offset + 12 + 12 * k + 10)))
          (bcd_decode (byteAt buf (offset + 12 + 12 * k + 11))) = false := by
        rw [e6, e7, e8, e9, e10, e11]
        exact hbad
      have hfitr : offset + 12 + 12 * k + 18 ≤ L := by omega
      by_cases hss0 : u16_at buf (offset + 16) = 0
      · rw [if_pos hss0]
        by_cases hv0 : valid_datetime
            (bcd_decode (byteAt buf (offset + 6)) * 100 + bcd_decode (byteAt buf (offset + 7)))
            (bcd_decode (byteAt buf (offset + 8))) (bcd_decode (byteAt buf (offset + 9)))
            (bcd_decode (byteAt buf (offset + 10))) (bcd_decode (byteAt buf (offset + 11))) = true
        · rw [if_pos hv0, ih k (offset + 12) (c + 1) (by omega) hfitr hssr hbadr]
        · rw [if_neg hv0]
      · rw [if_neg hss0]
        exact ih k (offset + 12) c (by omega) hfitr hssr hbadr

/-- Whether the entry walk succeeds does not depend on the incoming
counter (the counter only seeds the emitted ids). -/
theorem parse_entries_ok_counter (buf : List Nat) (L : Nat) :
    ∀ n off c c2 p, parse_entries buf L n off c = .ok p →
      ∃ q, parse_entries buf L n off c2 = .ok q := by
  intro n
  induction n with
  | zero => intro off c c2 p _; exact ⟨([], c2), rfl⟩
  | succ n ih =>
    intro off c c2 p h
    simp only [parse_entries] at h ⊢
    by_cases hbreak : off + 18 > L
    · rw [if_pos hbreak]
      exact ⟨([], c2), rfl⟩
    · rw [if_neg hbreak] at h ⊢
      by_cases hss : u16_at buf (off + 16) = 0
      · rw [if_pos hss] at h ⊢
        by_cases hv : valid_datetime
            (bcd_decode (byteAt buf (off + 6)) * 100 + bcd_decode (byteAt buf (off + 7)))
            (bcd_decode (byteAt buf (off + 8))) (bcd_decode (byteAt buf (off + 9)))
            (bcd_decode (byteAt buf (off + 10))) (bcd_decode (byteAt buf (off + 11))) = true
        · rw [if_pos hv] at h ⊢
          cases hrec : parse_entries buf L n (off + 12) (c + 1) with
          | error e => rw [hrec] at h; cases h
          | ok pr =>
            obtain ⟨q, hq⟩ := ih (off + 12) (c + 1) (c2 + 1) pr hrec
            obtain ⟨qs, qc⟩ := q
            rw [hq]
            exact ⟨_, rfl⟩
        · rw [if_neg hv] at h
          cases h
      · rw [if_neg hss] at h ⊢
        exact ih (off + 12) c c2 p h

/-- Counter independence lifted to `parse_segment_samples`. -/
theorem parse_segment_samples_ok_counter (buf : List Nat) (L c c2 : Nat)
    (p : List GlucoseSample × Nat) (h : parse_segment_samples buf L c = .ok p) :
    ∃ q, parse_segment_samples buf L c2 = .ok q := by
  unfold parse_segment_samples at h ⊢
  by_cases hs : L < 32
  · rw [if_pos hs]
    exact ⟨([], c2), rfl⟩
  · rw [if_neg hs] at h ⊢
    exact parse_entries_ok_counter buf L (u16_at buf 30) 30 c c2 p h

/-- An erroring segment makes the phase-12 loop err, whatever its
position: any prefix of full-length segments that parse successfully and
do not set the last-segment bit is walked through first, whatever the
running invoke id and sample counter. -/
theorem rds_loop_error_of_bad (pm : Nat) :
    ∀ (good : List (List Nat)) (seg : List Nat) (rest : List (List Nat)) (inv c : Nat),
      (∀ g ∈ good, 33 ≤ g.length ∧ byteAt g 32 &&& 64 = 0 ∧
        ∃ p, parse_segment_samples g g.length 0 = .ok p) →
      33 ≤ seg.length →
      (∀ cc, parse_segment_samples seg seg.length cc = .error .DatetimeParse) →
      read_data_segments_loop pm (good ++ seg :: rest) inv c = .error .DatetimeParse := by
  intro good
  induction good with
  | nil =>
    intro seg rest inv c _ hlen hbad
    simp only [List.nil_append, read_data_segments_loop]
    rw [if_neg (by omega), hbad c]
  | cons g gs ih =>
    intro seg rest inv c hgood hlen hbad
    obtain ⟨hg33, hgbit, p, hgok⟩ := hgood g (List.mem_cons_self g gs)
    obtain ⟨q, hq⟩ := parse_segment_samples_ok_counter g g.length 0 c p hgok
    simp only [List.cons_append, read_data_segments_loop]
    rw [if_neg (show ¬ g.length < 33 by omega)]
    split
    · rename_i e heq
      rw [hq] at heq
      cases heq
    · rename_i ss c2 heq
      rw [if_neg (by simp [hgbit])]
      simp only [List.append_eq]
      rw [ih seg rest (update_invoke_id g) c2
        (fun g2 hg2 => hgood g2 (List.mem_cons_of_mem g hg2)) hlen hbad]

/-- C9: an entry with status 0 whose BCD fields are not a valid calendar
date-time is not skipped: whichever segment it sits in (after any prefix
of well-formed, successfully parsed, non-final segments), the datetime
parse error propagates through the segment loop and the whole download
fails, returning no samples at all — the samples of the earlier segments
are discarded with it. -/
theorem invalid_datetime_aborts_download (b2 b4 b7 b9 b11 seg : List Nat)
    (good rest : List (List Nat)) (pm k : Nat)
    (hpm : parse_pm_store_handle b4 b4.length = .ok pm)
    (hgood : ∀ g ∈ good, 33 ≤ g.length ∧ byteAt g 32 &&& 64 = 0 ∧
      ∃ p, parse_segment_samples g g.length 0 = .ok p)
    (hlen : 33 ≤ seg.length)
    (hk : k < u16_at seg 30)
    (hfit : 30 + 12 * k + 18 ≤ seg.length)
    (hstatus : u16_at seg (30 + 12 * k + 16) = 0)
    (hbad : valid_datetime
        (bcd_decode (byteAt seg (30 + 12 * k + 6)) * 100 +
          bcd_decode (byteAt seg (30 + 12 * k + 7)))
        (bcd_decode (byteAt seg (30 + 12 * k + 8)))
        (bcd_decode (byteAt seg (30 + 12 * k + 9)))
        (bcd_decode (byteAt seg (30 + 12 * k + 10)))
        (bcd_decode (byteAt seg (30 + 12 * k + 11))) = false) :
    execute (b2 :: b4 :: b7 :: b9 :: b11 :: (good ++ seg :: rest)) =
      .error .DatetimeParse := by
  have hparse : ∀ cc, parse_segment_samples seg seg.length cc = .error .DatetimeParse := by
    intro cc
    unfold parse_segment_samples
    rw [if_neg (by omega)]
    exact parse_entries_error_of_bad seg seg.length (u16_at seg 30) k 30 cc hk hfit hstatus hbad
  have hloop := rds_loop_error_of_bad pm good seg rest (update_invoke_id b11) 0
    hgood hlen hparse
  simp only [execute, read_data_segments, hpm, hloop]

/-- Segment buffer with one valid entry: BCD date bytes
`20 24 03 15 09 30`, value `0x0078` (120 mg/dL), status 0, `nb_entries`
1, status byte `0x40`. -/
def c5_segment : List Nat :=
  [0, 0, 0, 0, 0, 0, 0, 5] ++ List.replicate 22 0 ++ [0, 1, 0x40, 0, 0, 0] ++
  [0x20, 0x24, 0x03, 0x15, 0x09, 0x30] ++ [0, 0] ++ [0, 0x78] ++ [0, 0]

/-- C5 counterexample: the valid entry with BCD bytes
`20 24 03 15 09 30` yields the timestamp "2024/03/15 09:30" — the century
and year pairs are adjacent, with no space — not "20 24/03/15 09:30". -/
theorem timestamp_format_counterexample :
    (parse_segment_samples c5_segment 48 0).map (fun p => p.1.map GlucoseSample.timestamp) =
      .ok ["2024/03/15 09:30"] ∧
    ("2024/03/15 09:30" : String) ≠ "20 24/03/15 09:30" := by decide

/-- C5 (amended): timestamps have the literal format "CCYY/MM/DD HH:MM"
with zero-padded two-digit fields, the century and year-in-century pairs
rendered adjacently with no separating space; the example entry with BCD
bytes `20 24 03 15 09 30` and value 120 yields exactly the sample
`{id 0, timestamp "2024/03/15 09:30", 120 mg/dL}`. -/
theorem timestamp_format_amended :
    parse_segment_samples c5_segment 48 0 =
      .ok ([{ id := 0, epoch := local_epoch 2024 3 15 9 30,
              timestamp := "2024/03/15 09:30", mg_dl := 120,
              mmol_l := mkRat 120 18 }], 1) ∧
    (∀ sid cc yy mm dd hh mn vv : Nat,
      (entry_sample sid cc yy mm dd hh mn vv).timestamp =
        pad2 cc ++ pad2 yy ++ "/" ++ pad2 mm ++ "/" ++ pad2 dd ++ " " ++
          pad2 hh ++ ":" ++ pad2 mn) :=
  ⟨by decide, fun _ _ _ _ _ _ _ _ => rfl⟩

/-- Phase-2 buffer of the witness runs (content is never interpreted). -/
def w_b2 : List Nat := []

/-- Phase-4 configuration buffer of the witness runs: invoke bytes
`00 05`, one object of class 61 with handle 16. -/
def w_b4 : List Nat :=
  [0, 0, 0, 0, 0, 0, 0, 5] ++ List.replicate 16 0 ++ [0, 1, 0, 0] ++
    [0, 61, 0, 16, 0, 0, 0, 0]

/-- Phase-7 buffer of the witness runs, invoke bytes `00 09`. -/
def w_b7 : List Nat := [0, 0, 0, 0, 0, 0, 0, 9]

/-- Phase-9 buffer of the witness runs, invoke bytes `00 0A`. -/
def w_b9 : List Nat := [0, 0, 0, 0, 0, 0, 0, 10]

/-- Phase-11 buffer of the witness runs. -/
def w_b11 : List Nat := []

/-- Empty final segment: invoke bytes `00 0B`, zero entries, last-segment
bit set. -/
def w_seg0 : List Nat :=
  [0, 0, 0, 0, 0, 0, 0, 11] ++ List.replicate 22 0 ++ [0, 0, 0x40]

/-- Transcript of the witness run with the single empty segment. -/
def w_t : Transcript :=
  { assocResp := send_pairing_confirmation
    configConfirm := send_config_confirmation 5
    mdsReq := request_mds_attributes 5
    segInfoReq := send_segment_info_request 9 16
    trigReq := request_data_segments 10 16
    acks := [send_segment_ack 11 16 0 0 0]
    release := disconnect_msg }

theorem invoke_id_propagation_witness :
    u16_at w_t.mdsReq 6 = (u16_at w_b4 6 + 1) % 65536 ∧
    u16_at w_t.segInfoReq 6 = (u16_at w_b7 6 + 1) % 65536 ∧
    u16_at w_t.trigReq 6 = (u16_at w_b9 6 + 1) % 65536 ∧
    w_t.acks.length ≤ [w_seg0].length ∧
    u16_at (w_t.acks.getD 0 []) 6 = u16_at ([w_seg0].getD 0 []) 6 := by
  have H := invoke_id_propagation w_b2 w_b4 w_b7 w_b9 w_b11 [w_seg0] [] [] w_t (by decide)
  exact ⟨H.1, H.2.1, H.2.2.1, H.2.2.2.1, H.2.2.2.2 0 (by decide)⟩

/-- First data segment of the multi-segment witness run: invoke bytes
`00 05`, two valid entries, status byte `0x00`. -/
def w8_seg1 : List Nat :=
  [0, 0, 0, 0, 0, 0, 0, 5] ++ List.replicate 22 0 ++ [0, 2, 0, 0, 0, 0] ++
  [0x20, 0x24, 0x03, 0x15, 0x09, 0x30] ++ [0, 0] ++ [0, 0x78] ++ [0, 0] ++
  [0x20, 0x24, 0x03, 0x16, 0x10, 0x45] ++ [0, 0] ++ [0, 0x90] ++ [0, 0]

/-- Second data segment of the multi-segment witness run: invoke bytes
`00 0B`, one valid entry, status byte `0x40`. -/
def w8_seg2 : List Nat :=
  [0, 0, 0, 0, 0, 0, 0, 11] ++ List.replicate 22 0 ++ [0, 1, 0x40, 0, 0, 0] ++
  [0x20, 0x24, 0x04, 0x01, 0x00, 0x00] ++ [0, 0] ++ [0, 0x64] ++ [0, 0]

/-- The three samples of the multi-segment witness run. -/
def w8_samples : List GlucoseSample :=
  [{ id := 0, epoch := local_epoch 2024 3 15 9 30, timestamp := "2024/03/15 09:30",
     mg_dl := 120, mmol_l := mkRat 120 18 },
   { id := 1, epoch := local_epoch 2024 3 16 10 45, timestamp := "2024/03/16 10:45",
     mg_dl := 144, mmol_l := mkRat 144 18 },
   { id := 2, epoch := local_epoch 2024 4 1 0 0, timestamp := "2024/04/01 00:00",
     mg_dl := 100, mmol_l := mkRat 100 18 }]

/-- Transcript of the multi-segment witness run. -/
def w8_t : Transcript :=
  { assocResp := send_pairing_confirmation
    configConfirm := send_config_confirmation 5
    mdsReq := request_mds_attributes 5
    segInfoReq := send_segment_info_request 9 16
    trigReq := request_data_segments 10 16
    acks := [send_segment_ack 5 16 0 0 2, send_segment_ack 11 16 0 0 1]
    release := disconnect_msg }

theorem sample_ids_sequential_witness :
    (w8_samples.getD 0 default).id = 0 ∧ (w8_samples.getD 1 default).id = 1 ∧
    (w8_samples.getD 2 default).id = 2 ∧ w8_samples.length = 3 := by
  have H := sample_ids_sequential [w_b2, w_b4, w_b7, w_b9, w_b11, w8_seg1, w8_seg2, []]
    w8_samples w8_t (by decide)
  exact ⟨H 0 (by decide), H 1 (by decide), H 2 (by decide), by decide⟩

theorem frame_length_invariant_witness :
    4 ≤ w8_t.release.length ∧ u16_at w8_t.release 2 = w8_t.release.length - 4 := by
  have H := frame_length_invariant [w_b2, w_b4, w_b7, w_b9, w_b11, w8_seg1, w8_seg2, []]
    w8_samples w8_t (by decide)
  exact H w8_t.release (by decide)

theorem ack_reports_entry_count_witness :
    w8_t.acks.length ≤ [w8_seg1, w8_seg2].length ∧
    u16_at (w8_t.acks.getD 0 []) 30 = u16_at ([w8_seg1, w8_seg2].getD 0 []) 30 ∧
    parse_segment_samples ([w8_seg1, w8_seg2].getD 0 [])
        ([w8_seg1, w8_seg2].getD 0 []).length 0 =
      parse_entries ([w8_seg1, w8_seg2].getD 0 [])
        ([w8_seg1, w8_seg2].getD 0 []).length (u16_at (w8_t.acks.getD 0 []) 30) 30 0 := by
  have H := ack_reports_entry_count w_b2 w_b4 w_b7 w_b9 w_b11 [w8_seg1, w8_seg2] []
    w8_samples w8_t (by decide)
  exact ⟨H.1, (H.2 0 (by decide)).1, (H.2 0 (by decide)).2 0⟩

theorem short_segment_end_of_stream_witness :
    read_data_segments_loop 16 [[0, 0, 0, 0], []] 7 3 = .ok ⟨[], [], [[]], 7⟩ ∧
    execute [w_b2, w_b4, w_b7, w_b9, w_b11, [0, 0, 0, 0], []] =
      .ok ([], { assocResp := send_pairing_confirmation
                 configConfirm := send_config_confirmation (update_invoke_id w_b4)
                 mdsReq := request_mds_attributes (update_invoke_id w_b4)
                 segInfoReq := send_segment_info_request (update_invoke_id w_b7) 16
                 trigReq := request_data_segments (update_invoke_id w_b9) 16
                 acks := []
                 release := disconnect_msg }) :=
  short_segment_end_of_stream 16 w_b2 w_b4 w_b7 w_b9 w_b11 [0, 0, 0, 0] [[]] 7 3
    (by decide) (by decide) (by decide)

/-- Segment with one status-0 entry whose BCD month byte is `0x00`: the
decoded month 0 is not a valid calendar month. -/
def w9_seg : List Nat :=
  [0, 0, 0, 0, 0, 0, 0, 10] ++ List.replicate 22 0 ++ [0, 1, 0x40, 0, 0, 0] ++
  [0x20, 0x24, 0x00, 0x15, 0x09, 0x30] ++ [0, 0] ++ [0, 0x78] ++ [0, 0]

theorem invalid_datetime_aborts_download_witness :
    execute [w_b2, w_b4, w_b7, w_b9, w_b11, w8_seg1, w9_seg, []] = .error .DatetimeParse := by
  apply invalid_datetime_aborts_download w_b2 w_b4 w_b7 w_b9 w_b11 w9_seg [w8_seg1] [[]]
    16 0 (by decide) ?_ (by decide) (by decide) (by decide) (by decide) (by decide)
  intro g hg
  have hgeq : g = w8_seg1 := by simpa using hg
  subst hgeq
  exact ⟨by decide, by decide, ⟨(w8_samples.take 2, 2), by decide⟩⟩

end AccuChek
